import Mathlib

/-!
Shallow embedding of the single-file Jeopardy web app (src/jeopardy.js) and
proofs of the claims made by the specification about it.

Modelling conventions:
* The three-valued JS field `showing` (null / "question" / "answer") becomes
  the inductive type `Showing`.
* The global mutable world (the `categories` array plus the DOM pieces the
  code touches: `#jeopardy thead`, `#jeopardy tbody`, the `#start` button and
  the spinner) becomes the structure `AppState`.
* Network responses are an explicit `Remote` environment: the body of
  `GET /api/categories` and, per id, the body of `GET /api/category`, each an
  `Except String _` so that a rejected promise is an `.error`.
* Randomness is an explicit stream `rand : Nat → Nat`; the lodash
  `baseRandom(lower, upper)` becomes `lower + rand i % (upper - lower + 1)`,
  faithful to a uniform draw from `[lower, upper]`.
* lodash `_.sampleSize(xs, n)` is embedded operation-by-operation:
  copy, clamp `n` to the length, partially Fisher–Yates-shuffle the first
  `n` positions (`shuffleSelf`), truncate to `n`.
* A thrown JS exception (e.g. reading a property of `undefined` in
  `handleClick`) is `Except.error ()`; an async rejection in
  `setupAndStart` is reported in the `Option String` component.
-/

namespace Jeopardy

/-- Reveal state of a clue: JS `null` / `"question"` / `"answer"`. -/
inductive Showing where
  | none
  | question
  | answer
deriving DecidableEq, Repr

/-- One clue of the in-memory `categories` structure. -/
structure Clue where
  question : String
  answer : String
  showing : Showing
deriving DecidableEq, Repr

/-- One category of the in-memory `categories` structure. -/
structure Category where
  title : String
  clues : List Clue
deriving DecidableEq, Repr

/-- One element of the `/api/categories` response; the code reads only `.id`. -/
structure Candidate where
  id : Nat
deriving DecidableEq, Repr

/-- One element of the `clues` array of a remote category; the code reads only
`.question` and `.answer`. -/
structure RemoteClue where
  question : String
  answer : String
deriving DecidableEq, Repr

/-- Body of the `/api/category` response. -/
structure RemoteCategory where
  title : String
  clues : List RemoteClue
deriving DecidableEq, Repr

/-- The remote API environment: what each of the two endpoints would return.
An `.error` models a rejected axios promise. -/
structure Remote where
  categoriesData : Except String (List Candidate)
  categoryData : Nat → Except String RemoteCategory

/-- lodash `baseRandom(lower, upper)`: a draw from `[lower, upper]`, driven by
an arbitrary natural `r` supplied by the random stream. -/
def baseRandom (lower upper r : Nat) : Nat :=
  lower + r % (upper - lower + 1)

/-- One swap `array[i] ↔ array[j]` as performed inside lodash `shuffleSelf`;
out-of-range indices leave the list unchanged (they cannot occur in the
actual loop, where `i < size ≤ length` and `j ∈ [i, length-1]`). -/
def listSwap (l : List α) (i j : Nat) : List α :=
  match l[i]?, l[j]? with
  | some a, some b => (l.set i b).set j a
  | _, _ => l

/-- lodash `shuffleSelf(array, size)`: for `index = i, i+1, …` up to `size`
iterations, swap position `index` with a random position in
`[index, length-1]`. -/
def shuffleSelf : List α → Nat → (Nat → Nat) → Nat → List α
  | l, 0, _, _ => l
  | l, Nat.succ s, rand, i =>
      shuffleSelf (listSwap l i (baseRandom i (l.length - 1) (rand i))) s rand (i + 1)

/-- lodash `_.sampleSize(l, n)`: clamp `n` to the length, partially shuffle,
keep the first `n` elements. -/
def sampleSize (l : List α) (n : Nat) (rand : Nat → Nat) : List α :=
  (shuffleSelf l (min n l.length) rand 0).take (min n l.length)

/-- The projection `(c) => ({question: c.question, answer: c.answer,
showing: null})` from `getCategory`. -/
def projectClue (c : RemoteClue) : Clue :=
  { question := c.question, answer := c.answer, showing := Showing.none }

/-- Embedding of `getCategoryIds`: read the candidate list, keep the ids,
sample 6 of them. -/
def getCategoryIds (remote : Remote) (rand : Nat → Nat) : Except String (List Nat) :=
  match remote.categoriesData with
  | Except.error e => Except.error e
  | Except.ok data => Except.ok (sampleSize (data.map Candidate.id) 6 rand)

/-- Embedding of `getCategory`: read one category, sample 5 of its clues,
project each onto `{question, answer, showing := none}`. -/
def getCategory (remote : Remote) (rand : Nat → Nat) (catId : Nat) :
    Except String Category :=
  match remote.categoryData catId with
  | Except.error e => Except.error e
  | Except.ok cat =>
      Except.ok { title := cat.title
                  clues := (sampleSize cat.clues 5 rand).map projectClue }

/-- Content of a table cell: the initial `<i>` question-mark icon, or the
text/html last written by `$tgt.html(msg)`. -/
inductive CellContent where
  | placeholder
  | html (msg : String)
deriving DecidableEq, Repr

/-- One `<td>` of `#jeopardy tbody`: its `id` attribute (absent on elements
other than the clue cells), its content and whether class `disabled` was
added. -/
structure Cell where
  id : Option String
  content : CellContent
  disabled : Bool
deriving DecidableEq, Repr

/-- The global mutable world of the script: the `categories` array and the
DOM pieces it manipulates. `thead` holds rows of header texts; `tbody` holds
rows of cells. -/
structure AppState where
  categories : List Category
  thead : List (List String)
  tbody : List (List Cell)
  startLabel : String
  startDisabled : Bool
  spinnerShown : Bool
deriving DecidableEq, Repr

/-- The template literal `` `${catIdx}-${clueIdx}` `` used as the cell id. -/
def cellId (catIdx clueIdx : Nat) : String :=
  toString catIdx ++ "-" ++ toString clueIdx

/-- The fresh `<td>` appended by `fillTable`: id `catIdx-clueIdx`, containing
the icon, no `disabled` class. -/
def freshCell (catIdx clueIdx : Nat) : Cell :=
  { id := some (cellId catIdx clueIdx), content := CellContent.placeholder
    disabled := false }

/-- The 5 × 6 grid of fresh cells that `fillTable` builds in `tbody`
(`clueIdx` over rows 0..4, `catIdx` over columns 0..5, both hard-coded). -/
def freshGrid : List (List Cell) :=
  (List.range 5).map fun clueIdx => (List.range 6).map fun catIdx => freshCell catIdx clueIdx

/-- Embedding of `showLoadingView`: empty both table sections, show the
spinner, disable the start button and relabel it `"Loading..."`. -/
def showLoadingView (s : AppState) : AppState :=
  { s with thead := [], tbody := []
           spinnerShown := true, startDisabled := true, startLabel := "Loading..." }

/-- Embedding of `hideLoadingView`: re-enable and relabel the start button,
hide the spinner. -/
def hideLoadingView (s : AppState) : AppState :=
  { s with startLabel := "Restart!", startDisabled := false, spinnerShown := false }

/-- Embedding of `fillTable`: first `hideLoadingView()`, then append one
header row (one `<th>` per category, in order) to `thead`, then empty
`tbody` and rebuild it as the fresh 5 × 6 grid. -/
def fillTable (s : AppState) : AppState :=
  let s1 := hideLoadingView s
  { s1 with thead := s1.thead ++ [s1.categories.map Category.title]
            tbody := freshGrid }

/-- The element a click lands on: either the `<td>` at row `r`, column `c`
of `tbody`, or an id-less element such as the `<i>` icon inside a cell. -/
inductive Target where
  | cell (r c : Nat)
  | icon
deriving DecidableEq, Repr

/-- The `$tgt.attr("id")` read: the id attribute of the clicked cell, or
`undefined` (`none`) for an id-less element or a non-existent position. -/
def targetIdOf (s : AppState) (t : Target) : Option String :=
  match t with
  | Target.icon => none
  | Target.cell r c => ((s.tbody[r]?).bind fun row => row[c]?).bind Cell.id

/-- Replace the element at index `i`; other positions (and out-of-range `i`)
are untouched. Used to model in-place mutation of one array slot. -/
def modifyIdx : List α → Nat → (α → α) → List α
  | [], _, _ => []
  | x :: xs, 0, f => f x :: xs
  | x :: xs, Nat.succ n, f => x :: modifyIdx xs n f

/-- Apply a jQuery-style mutation to the clicked element itself (`$tgt`):
for a cell target, rewrite that grid slot; an id-less element has no
modelled effect (the handler never reaches a `$tgt` write for it). -/
def tgtUpdate (tb : List (List Cell)) (t : Target) (f : Cell → Cell) :
    List (List Cell) :=
  match t with
  | Target.icon => tb
  | Target.cell r c => modifyIdx tb r fun row => modifyIdx row c f

/-- Decide whether a character is an ASCII digit. -/
def isDigitChar (c : Char) : Bool :=
  decide ('0' ≤ c) && decide (c ≤ '9')

/-- JS array indexing with a string key `arr[s]`: the key hits an index only
when it is the canonical decimal numeral (all digits, no leading zero except
`"0"` itself); any other key is a plain property, i.e. `undefined` here. -/
def jsIndexNat (s : String) : Option Nat :=
  let cs := s.toList
  if cs ≠ [] ∧ cs.all isDigitChar ∧ (cs.length = 1 ∨ cs.headD ' ' ≠ '0')
  then some (cs.foldl (fun acc c => 10 * acc + (c.toNat - Char.toNat '0')) 0)
  else none

/-- JS `str.split("-")` on the list of characters: split at every `'-'`,
keeping empty fragments. -/
def splitDashChars : List Char → List (List Char)
  | [] => [[]]
  | c :: rest =>
      let r := splitDashChars rest
      if c = '-' then [] :: r
      else
        match r with
        | [] => [[c]]
        | g :: gs => (c :: g) :: gs

/-- JS `id.split("-")`. -/
def jsSplitDash (s : String) : List String :=
  (splitDashChars s.toList).map fun cs => String.mk cs

/-- Lines 103–104 of `handleClick` up to the two array indexings: destructure
`[catId, clueId] = id.split("-")` and convert each part as a JS array key.
`none` means the subsequent property access throws. -/
def resolveAddrOfId (id : String) : Option (Nat × Nat) :=
  let parts := jsSplitDash id
  match jsIndexNat (parts.headD ""), (parts[1]?).bind jsIndexNat with
  | some ci, some qi => some (ci, qi)
  | _, _ => none

/-- The whole lookup `categories[catId].clues[clueId]` for a click on `t`,
starting from `$tgt.attr("id")`: `none` wherever the JS code would throw a
`TypeError` (no id, unparseable id, missing category or missing clue). -/
def resolveClue (s : AppState) (t : Target) : Option Clue :=
  (targetIdOf s t).bind fun id =>
    (resolveAddrOfId id).bind fun a =>
      (s.categories[a.1]?).bind fun cat => cat.clues[a.2]?

/-- In-place update of `categories[ci].clues[qi].showing`. -/
def setShowing (cats : List Category) (ci qi : Nat) (v : Showing) : List Category :=
  modifyIdx cats ci fun cat =>
    { cat with clues := modifyIdx cat.clues qi fun cl => { cl with showing := v } }

/-- Embedding of `handleClick`. `Except.error ()` is a thrown `TypeError`
(reading a property of `undefined`); it occurs before any state is written.
Otherwise the three-way match on `clue.showing` runs: `none` shows the
question, `"question"` shows the answer and adds class `disabled`,
`"answer"` returns without touching anything. -/
def handleClick (t : Target) (s : AppState) : Except Unit AppState :=
  match targetIdOf s t with
  | none => Except.error ()
  | some id =>
    match resolveAddrOfId id with
    | none => Except.error ()
    | some a =>
      match s.categories[a.1]? with
      | none => Except.error ()
      | some cat =>
        match cat.clues[a.2]? with
        | none => Except.error ()
        | some clue =>
          match clue.showing with
          | Showing.none =>
              Except.ok { s with
                categories := setShowing s.categories a.1 a.2 Showing.question
                tbody := tgtUpdate s.tbody t fun cell =>
                  { cell with content := CellContent.html clue.question } }
          | Showing.question =>
              Except.ok { s with
                categories := setShowing s.categories a.1 a.2 Showing.answer
                tbody := tgtUpdate s.tbody t fun cell =>
                  { cell with content := CellContent.html clue.answer, disabled := true } }
          | Showing.answer => Except.ok s

/-- The `for (let catId of catIds)` loop of `setupAndStart`, starting from
`categories = []`: push each fetched category; a rejected fetch stops the
loop, keeping what was already pushed. Each call consumes the head of the
stream family `rands`. -/
def fetchLoop (remote : Remote) (rands : Nat → Nat → Nat) :
    List Nat → List Category × Option String
  | [] => ([], none)
  | cid :: rest =>
    match getCategory remote (rands 0) cid with
    | Except.error e => ([], some e)
    | Except.ok cat =>
      let r := fetchLoop remote (fun n => rands (n + 1)) rest
      (cat :: r.1, r.2)

/-- Embedding of `setupAndStart`. The guard is the literal label comparison
`$("#start").text() === "Loading..."`. The `Option String` component is the
rejection the async function would propagate (`none` = resolved). The
returned `AppState` is the world after the run, including the partial
mutations a rejection leaves behind. -/
def setupAndStart (remote : Remote) (rand0 : Nat → Nat) (rands : Nat → Nat → Nat)
    (s : AppState) : AppState × Option String :=
  if s.startLabel = "Loading..." then (s, none)
  else
    let s1 := showLoadingView s
    match getCategoryIds remote rand0 with
    | Except.error e => (s1, some e)
    | Except.ok catIds =>
      let r := fetchLoop remote rands catIds
      match r.2 with
      | some e => ({ s1 with categories := r.1 }, some e)
      | none => (fillTable { s1 with categories := r.1 }, none)

/-- Observable operations of one `setupAndStart` run, for ordering claims. -/
inductive Ev where
  | enterLoading
  | fetchIds
  | fetchCat (cid : Nat)
  | exitLoading
  | emitHeader
  | clearBody
  | emitRow (i : Nat)
deriving DecidableEq, Repr

/-- Events of `fillTable`, in source order: `hideLoadingView()` first, then
the header row append, then `tbody.empty()`, then the five row appends. -/
def fillTableTrace : List Ev :=
  [Ev.exitLoading, Ev.emitHeader, Ev.clearBody] ++ (List.range 5).map Ev.emitRow

/-- Events of the category loop: one `fetchCat` per attempted id, stopping
after a rejected fetch. -/
def fetchLoopTrace (remote : Remote) (rands : Nat → Nat → Nat) : List Nat → List Ev
  | [] => []
  | cid :: rest =>
    Ev.fetchCat cid ::
      match getCategory remote (rands 0) cid with
      | Except.error _ => []
      | Except.ok _ => fetchLoopTrace remote (fun n => rands (n + 1)) rest

/-- Event trace of one `setupAndStart` call, mirroring its control flow. -/
def setupAndStartTrace (remote : Remote) (rand0 : Nat → Nat) (rands : Nat → Nat → Nat)
    (s : AppState) : List Ev :=
  if s.startLabel = "Loading..." then []
  else
    Ev.enterLoading :: Ev.fetchIds ::
      match getCategoryIds remote rand0 with
      | Except.error _ => []
      | Except.ok catIds =>
        fetchLoopTrace remote rands catIds ++
          match (fetchLoop remote rands catIds).2 with
          | some _ => []
          | none => fillTableTrace

/-- Clue stored at `(categories[ci]).clues[qi]` of a state. -/
def clueAt (s : AppState) (ci qi : Nat) : Option Clue :=
  (s.categories[ci]?).bind fun cat => cat.clues[qi]?

/-- Content of the `tbody` cell at row `r`, column `c`. -/
def cellContentAt (s : AppState) (r c : Nat) : Option CellContent :=
  (((s.tbody[r]?).bind fun row => row[c]?).map Cell.content)

/-- Disabled flag of the `tbody` cell at row `r`, column `c`. -/
def cellDisabledAt (s : AppState) (r c : Nat) : Option Bool :=
  (((s.tbody[r]?).bind fun row => row[c]?).map Cell.disabled)

/-- Equality of `Except` values is decidable when it is on both sides; used
to evaluate results of the model on closed inputs. -/
instance [DecidableEq ε] [DecidableEq α] : DecidableEq (Except ε α) := fun x y =>
  match x, y with
  | Except.error a, Except.error b =>
      decidable_of_iff (a = b) ⟨fun h => by rw [h], fun h => by cases h; rfl⟩
  | Except.ok a, Except.ok b =>
      decidable_of_iff (a = b) ⟨fun h => by rw [h], fun h => by cases h; rfl⟩
  | Except.error _, Except.ok _ => isFalse fun h => Except.noConfusion h
  | Except.ok _, Except.error _ => isFalse fun h => Except.noConfusion h

/-! Concrete fixtures used to evaluate the model on closed inputs. -/

/-- A five-clue remote clue list. -/
def okClues : List RemoteClue :=
  [{ question := "q0", answer := "a0" }, { question := "q1", answer := "a1" },
   { question := "q2", answer := "a2" }, { question := "q3", answer := "a3" },
   { question := "q4", answer := "a4" }]

/-- A healthy remote: six candidate ids, five clues per category. -/
def okRemote : Remote :=
  { categoriesData := Except.ok [{ id := 10 }, { id := 11 }, { id := 12 },
      { id := 13 }, { id := 14 }, { id := 15 }]
    categoryData := fun cid => Except.ok { title := "T" ++ toString cid, clues := okClues } }

/-- A two-clue remote clue list, shorter than the five requested. -/
def shortClues : List RemoteClue :=
  [{ question := "p", answer := "b" }, { question := "q", answer := "c" }]

/-- A remote that returns fewer candidates (3) and fewer clues (2) than the
fixed board dimensions ask for, but never errors. -/
def shortRemote : Remote :=
  { categoriesData := Except.ok [{ id := 1 }, { id := 2 }, { id := 3 }]
    categoryData := fun _ => Except.ok { title := "S", clues := shortClues } }

/-- A remote whose calls all reject. -/
def errRemote : Remote :=
  { categoriesData := Except.error "network down"
    categoryData := fun _ => Except.error "network down" }

/-- A remote whose candidate listing works but whose detail call for id 12
rejects, so the category loop fails midway. -/
def midFailRemote : Remote :=
  { categoriesData := Except.ok [{ id := 10 }, { id := 11 }, { id := 12 },
      { id := 13 }, { id := 14 }, { id := 15 }]
    categoryData := fun cid =>
      if cid = 12 then Except.error "boom"
      else Except.ok { title := "T", clues := okClues } }

/-- The all-zeros random stream (identity partial shuffle). -/
def zeroRand : Nat → Nat := fun _ => 0

/-- The all-zeros family of random streams. -/
def zeroRands : Nat → Nat → Nat := fun _ _ => 0

/-- An idle state, as after a finished game: start button shows `Restart!`. -/
def startState : AppState :=
  { categories := [], thead := [], tbody := [], startLabel := "Restart!"
    startDisabled := false, spinnerShown := false }

/-- A state mid-load: start button shows `Loading...`. -/
def loadingState : AppState :=
  { categories := [], thead := [], tbody := [], startLabel := "Loading..."
    startDisabled := true, spinnerShown := true }

/-- A fully revealed clue left over from a previous game. -/
def oldClue : Clue := { question := "oq", answer := "oa", showing := Showing.answer }

/-- A state still holding a stale grid and board from a previous game. -/
def staleState : AppState :=
  { categories := [{ title := "Old", clues := [oldClue] }]
    thead := [["Old"]]
    tbody := [[{ id := some "9-9", content := CellContent.html "stale", disabled := true }]]
    startLabel := "Restart!", startDisabled := false, spinnerShown := false }

/-- The fresh clue held by `clickState`. -/
def mathClue : Clue := { question := "2+2", answer := "4", showing := Showing.none }

/-- A rendered one-cell state with one fresh clue, for the click claims. -/
def clickState : AppState :=
  { categories := [{ title := "Math", clues := [mathClue] }]
    thead := [["Math"]]
    tbody := [[{ id := some (cellId 0 0), content := CellContent.placeholder, disabled := false }]]
    startLabel := "Restart!", startDisabled := false, spinnerShown := false }

/-! Helper lemmas about the sampling primitive. -/

theorem cons_set_perm (xs : List α) : ∀ (k : Nat) (b x : α), xs[k]? = some b →
    List.Perm (b :: xs.set k x) (x :: xs) := by
  induction xs with
  | nil => intro k b x h; simp at h
  | cons y t ih =>
    intro k b x h
    cases k with
    | zero =>
      simp at h
      subst h
      simpa using List.Perm.swap x _ t
    | succ k =>
      simp at h
      have h1 : List.Perm (b :: y :: t.set k x) (y :: b :: t.set k x) :=
        List.Perm.swap y b _
      have h2 : List.Perm (y :: b :: t.set k x) (y :: x :: t) :=
        List.Perm.cons y (ih k b x h)
      have h3 : List.Perm (y :: x :: t) (x :: y :: t) := List.Perm.swap x y t
      simpa using (h1.trans h2).trans h3

theorem set_set_perm (l : List α) : ∀ (i j : Nat) (a b : α), l[i]? = some a →
    l[j]? = some b → List.Perm ((l.set i b).set j a) l := by
  induction l with
  | nil => intro i j a b hi _; simp at hi
  | cons x xs ih =>
    intro i j a b hi hj
    cases i with
    | zero =>
      simp at hi
      subst hi
      cases j with
      | zero => simp at hj; subst hj; simp
      | succ j =>
        simp at hj
        simpa using cons_set_perm xs j b _ hj
    | succ i =>
      simp at hi
      cases j with
      | zero =>
        simp at hj
        subst hj
        simpa using cons_set_perm xs i a _ hi
      | succ j =>
        simp at hj
        simpa using List.Perm.cons x (ih i j a b hi hj)

theorem listSwap_perm (l : List α) (i j : Nat) : List.Perm (listSwap l i j) l := by
  rcases hi : l[i]? with _ | a <;> rcases hj : l[j]? with _ | b <;>
    simp [listSwap, hi, hj]
  exact set_set_perm l i j a b hi hj

theorem shuffleSelf_perm : ∀ (s : Nat) (l : List α) (rand : Nat → Nat) (i : Nat),
    List.Perm (shuffleSelf l s rand i) l := by
  intro s
  induction s with
  | zero => intro l rand i; exact List.Perm.refl l
  | succ s ih =>
    intro l rand i
    exact List.Perm.trans (ih _ rand (i + 1)) (listSwap_perm l i _)

theorem sampleSize_length (l : List α) (n : Nat) (rand : Nat → Nat) :
    (sampleSize l n rand).length = min n l.length := by
  have h := (shuffleSelf_perm (min n l.length) l rand 0).length_eq
  simp [sampleSize, h]

theorem sampleSize_nodup (l : List α) (n : Nat) (rand : Nat → Nat) (h : l.Nodup) :
    (sampleSize l n rand).Nodup := by
  have hp := shuffleSelf_perm (min n l.length) l rand 0
  exact List.Nodup.sublist (List.take_sublist _ _) (hp.nodup_iff.mpr h)

theorem sampleSize_all (l : List α) (n : Nat) (rand : Nat → Nat)
    (h : l.length ≤ n) : List.Perm (sampleSize l n rand) l := by
  have hp := shuffleSelf_perm (min n l.length) l rand 0
  have hmin : min n l.length = l.length := Nat.min_eq_right h
  have htake : (shuffleSelf l (min n l.length) rand 0).take (min n l.length) =
      shuffleSelf l (min n l.length) rand 0 := by
    apply List.take_of_length_le
    rw [hp.length_eq, hmin]
  rw [sampleSize, htake]
  exact hp

/-! Helper lemmas about the fetch pipeline. -/

theorem getCategory_ok (remote : Remote) (rand : Nat → Nat) (cid : Nat)
    (cat : Category) (h : getCategory remote rand cid = Except.ok cat) :
    ∃ rc, remote.categoryData cid = Except.ok rc ∧
      cat = { title := rc.title, clues := (sampleSize rc.clues 5 rand).map projectClue } := by
  unfold getCategory at h
  cases hr : remote.categoryData cid with
  | error e => rw [hr] at h; exact absurd h (by simp)
  | ok rc =>
    rw [hr] at h
    refine ⟨rc, rfl, ?_⟩
    cases h
    rfl

theorem getCategoryIds_ok (remote : Remote) (rand : Nat → Nat) (ids : List Nat)
    (h : getCategoryIds remote rand = Except.ok ids) :
    ∃ cands, remote.categoriesData = Except.ok cands ∧
      ids = sampleSize (cands.map Candidate.id) 6 rand := by
  unfold getCategoryIds at h
  cases hr : remote.categoriesData with
  | error e => rw [hr] at h; exact absurd h (by simp)
  | ok cands =>
    rw [hr] at h
    refine ⟨cands, rfl, ?_⟩
    cases h
    rfl

theorem fetchLoop_ok_length (remote : Remote) : ∀ (ids : List Nat)
    (rands : Nat → Nat → Nat), (fetchLoop remote rands ids).2 = none →
    (fetchLoop remote rands ids).1.length = ids.length := by
  intro ids
  induction ids with
  | nil => intro rands _; simp [fetchLoop]
  | cons cid rest ih =>
    intro rands h
    unfold fetchLoop at h ⊢
    cases hg : getCategory remote (rands 0) cid with
    | error e => rw [hg] at h; simp at h
    | ok cat =>
      rw [hg] at h
      simp at h ⊢
      exact ih _ h

theorem fetchLoop_err_length (remote : Remote) : ∀ (ids : List Nat)
    (rands : Nat → Nat → Nat) (e : String), (fetchLoop remote rands ids).2 = some e →
    (fetchLoop remote rands ids).1.length < ids.length := by
  intro ids
  induction ids with
  | nil => intro rands e h; simp [fetchLoop] at h
  | cons cid rest ih =>
    intro rands e h
    unfold fetchLoop at h ⊢
    cases hg : getCategory remote (rands 0) cid with
    | error e2 => simp
    | ok cat =>
      rw [hg] at h
      simp at h ⊢
      exact ih _ e h

theorem fetchLoop_mem (remote : Remote) : ∀ (ids : List Nat)
    (rands : Nat → Nat → Nat) (cat : Category), cat ∈ (fetchLoop remote rands ids).1 →
    ∃ cid r, cid ∈ ids ∧ getCategory remote r cid = Except.ok cat := by
  intro ids
  induction ids with
  | nil => intro rands cat h; simp [fetchLoop] at h
  | cons cid rest ih =>
    intro rands cat h
    unfold fetchLoop at h
    cases hg : getCategory remote (rands 0) cid with
    | error e => rw [hg] at h; simp at h
    | ok cat0 =>
      rw [hg] at h
      simp at h
      rcases h with h | h
      · exact ⟨cid, rands 0, by simp, by rw [hg, h]⟩
      · rcases ih _ cat h with ⟨cid2, r2, hmem, hok⟩
        exact ⟨cid2, r2, by simp [hmem], hok⟩

theorem fetchLoopTrace_ok (remote : Remote) : ∀ (ids : List Nat)
    (rands : Nat → Nat → Nat), (fetchLoop remote rands ids).2 = none →
    fetchLoopTrace remote rands ids = ids.map Ev.fetchCat := by
  intro ids
  induction ids with
  | nil => intro rands _; simp [fetchLoopTrace]
  | cons cid rest ih =>
    intro rands h
    unfold fetchLoop at h
    unfold fetchLoopTrace
    cases hg : getCategory remote (rands 0) cid with
    | error e => rw [hg] at h; simp at h
    | ok cat =>
      rw [hg] at h
      simp at h
      simp [ih _ h]

/-! Helper lemmas about list indexing and the grid. -/

theorem modifyIdx_getElem_self : ∀ (l : List α) (i : Nat) (f : α → α),
    (modifyIdx l i f)[i]? = (l[i]?).map f := by
  intro l
  induction l with
  | nil => intro i f; simp [modifyIdx]
  | cons x xs ih =>
    intro i f
    cases i with
    | zero => simp [modifyIdx]
    | succ i => simpa [modifyIdx] using ih i f

theorem targetIdOf_cell (s : AppState) (r c : Nat) (id : String)
    (h : targetIdOf s (Target.cell r c) = some id) :
    ∃ row cell, s.tbody[r]? = some row ∧ row[c]? = some cell ∧
      cell.id = some id := by
  simp only [targetIdOf] at h
  rcases Option.bind_eq_some.mp h with ⟨cell, hcell, hid⟩
  rcases Option.bind_eq_some.mp hcell with ⟨row, hrow, hc⟩
  exact ⟨row, cell, hrow, hc, hid⟩

theorem resolveAddrOfId_cellId : ∀ c < 6, ∀ r < 5,
    resolveAddrOfId (cellId c r) = some (c, r) := by decide

theorem freshGrid_cell (r c : Nat) (hr : r < 5) (hc : c < 6) :
    (freshGrid[r]?).bind (fun row => row[c]?) = some (freshCell c r) := by
  simp [freshGrid, List.getElem?_map, List.getElem?_range, hr, hc]

/-! Claim theorems. -/

/-- C1: a click on the cell of a clue advances `showing` exactly one step along
none → question → answer and never regresses or skips. From `none` the click
displays `clue.question` and sets `showing` to `"question"`; from
`"question"` it displays `clue.answer`, sets `showing` to `"answer"` and
marks the cell disabled; from `"answer"` the click is a no-op leaving the
whole state, hence also the displayed text, unchanged. -/
theorem claim_C1_reveal_transitions (s : AppState) (r c : Nat) (cat : Category)
    (clue : Clue) (hc6 : c < 6) (hr5 : r < 5)
    (hid : targetIdOf s (Target.cell r c) = some (cellId c r))
    (hcat : s.categories[c]? = some cat)
    (hclue : cat.clues[r]? = some clue) :
    (clue.showing = Showing.none →
      ∃ s1, handleClick (Target.cell r c) s = Except.ok s1 ∧
        clueAt s1 c r = some { clue with showing := Showing.question } ∧
        cellContentAt s1 r c = some (CellContent.html clue.question)) ∧
    (clue.showing = Showing.question →
      ∃ s1, handleClick (Target.cell r c) s = Except.ok s1 ∧
        clueAt s1 c r = some { clue with showing := Showing.answer } ∧
        cellContentAt s1 r c = some (CellContent.html clue.answer) ∧
        cellDisabledAt s1 r c = some true) ∧
    (clue.showing = Showing.answer →
      handleClick (Target.cell r c) s = Except.ok s) := by
  obtain ⟨row, cell, hrow, hcell, hcid⟩ := targetIdOf_cell s r c _ hid
  have haddr := resolveAddrOfId_cellId c hc6 r hr5
  refine ⟨?_, ?_, ?_⟩ <;> intro hs
  · refine ⟨{ s with
        categories := setShowing s.categories c r Showing.question,
        tbody := tgtUpdate s.tbody (Target.cell r c) fun cl =>
          { cl with content := CellContent.html clue.question } }, ?_, ?_, ?_⟩
    · simp [handleClick, hid, haddr, hcat, hclue, hs]
    · simp [clueAt, setShowing, modifyIdx_getElem_self, hcat, hclue]
    · simp [cellContentAt, tgtUpdate, modifyIdx_getElem_self, hrow, hcell]
  · refine ⟨{ s with
        categories := setShowing s.categories c r Showing.answer,
        tbody := tgtUpdate s.tbody (Target.cell r c) fun cl =>
          { cl with content := CellContent.html clue.answer, disabled := true } }, ?_, ?_, ?_, ?_⟩
    · simp [handleClick, hid, haddr, hcat, hclue, hs]
    · simp [clueAt, setShowing, modifyIdx_getElem_self, hcat, hclue]
    · simp [cellContentAt, tgtUpdate, modifyIdx_getElem_self, hrow, hcell]
    · simp [cellDisabledAt, tgtUpdate, modifyIdx_getElem_self, hrow, hcell]
  · simp [handleClick, hid, haddr, hcat, hclue, hs]

/-- C1 witness: on the concrete one-cell state `clickState`, whose clue is
fresh, the first click shows the question and advances `showing`. -/
theorem claim_C1_reveal_transitions_witness :
    ∃ s1, handleClick (Target.cell 0 0) clickState = Except.ok s1 ∧
      clueAt s1 0 0 = some { question := "2+2", answer := "4", showing := Showing.question } ∧
      cellContentAt s1 0 0 = some (CellContent.html "2+2") :=
  (claim_C1_reveal_transitions clickState 0 0
      { title := "Math", clues := [mathClue] } mathClue
      (by decide) (by decide) (by decide) (by decide) (by decide)).1 rfl

/-- C8: round-trip of cell addressing. After `fillTable` renders a state,
the cell the renderer tagged with id `catIdx-clueIdx` resolves, via the
click handler lookup, to exactly the clue at position `clueIdx` of the
category at position `catIdx` of the board that produced it. -/
theorem claim_C8_roundtrip (s : AppState) (c r : Nat) (hc : c < 6) (hr : r < 5) :
    resolveClue (fillTable s) (Target.cell r c) =
      (s.categories[c]?).bind fun cat => cat.clues[r]? := by
  have h2 := freshGrid_cell r c hr hc
  have h3 := resolveAddrOfId_cellId c hc r hr
  simp [resolveClue, targetIdOf, fillTable, hideLoadingView, h2, h3, freshCell]

/-- C8 witness: in the rendered `clickState`, cell (0,0) resolves back to
the clue that produced it. -/
theorem claim_C8_roundtrip_witness :
    resolveClue (fillTable clickState) (Target.cell 0 0) =
      (clickState.categories[0]?).bind fun cat => cat.clues[0]? :=
  claim_C8_roundtrip clickState 0 0 (by decide) (by decide)

/-- C10: `handleClick` performs unguarded lookups. Whenever the click
target has no id, or its id does not parse to an address resolving to an
existing clue of the current board (`resolveClue` is `none`), the handler
throws (`Except.error`, the modelled `TypeError`) instead of returning any
state, so in particular it mutates nothing and is not a no-op. -/
theorem claim_C10_bad_address_throws (s : AppState) (t : Target)
    (h : resolveClue s t = none) : handleClick t s = Except.error () := by
  unfold resolveClue at h
  unfold handleClick
  split
  · rfl
  · next id hid =>
    rw [hid] at h
    simp only [Option.some_bind] at h
    split
    · rfl
    · next a haddr =>
      rw [haddr] at h
      simp only [Option.some_bind] at h
      split
      · rfl
      · next cat hcat =>
        rw [hcat] at h
        simp only [Option.some_bind] at h
        split
        · rfl
        · next clue hclue =>
          rw [hclue] at h
          simp at h

/-- C10 witness: a click landing on the id-less placeholder icon makes the
handler throw. -/
theorem claim_C10_bad_address_throws_witness :
    handleClick Target.icon clickState = Except.error () :=
  claim_C10_bad_address_throws clickState Target.icon (by decide)

/-- C4: a start/restart trigger arriving while the start control is
labelled exactly `"Loading..."` does nothing: the state (categories, grid,
loading view) is returned unchanged and the event trace is empty, so no
second fetch starts. -/
theorem claim_C4_loading_guard (remote : Remote) (rand0 : Nat → Nat)
    (rands : Nat → Nat → Nat) (s : AppState) (h : s.startLabel = "Loading...") :
    setupAndStart remote rand0 rands s = (s, none) ∧
    setupAndStartTrace remote rand0 rands s = [] := by
  constructor <;> simp [setupAndStart, setupAndStartTrace, h]

/-- C4 witness: a restart triggered on the concrete mid-load state against
the healthy remote is ignored entirely. -/
theorem claim_C4_loading_guard_witness :
    setupAndStart okRemote zeroRand zeroRands loadingState = (loadingState, none) ∧
    setupAndStartTrace okRemote zeroRand zeroRands loadingState = [] :=
  claim_C4_loading_guard okRemote zeroRand zeroRands loadingState rfl

/-- Shape of a run whose category-id fetch rejects. -/
theorem setupAndStart_errIds (remote : Remote) (rand0 : Nat → Nat)
    (rands : Nat → Nat → Nat) (s : AppState) (e : String)
    (hl : s.startLabel ≠ "Loading...")
    (hids : getCategoryIds remote rand0 = Except.error e) :
    setupAndStart remote rand0 rands s = (showLoadingView s, some e) := by
  simp [setupAndStart, if_neg hl, hids]

/-- Shape of a run whose category loop rejects midway. -/
theorem setupAndStart_errLoop (remote : Remote) (rand0 : Nat → Nat)
    (rands : Nat → Nat → Nat) (s : AppState) (ids : List Nat) (e : String)
    (hl : s.startLabel ≠ "Loading...")
    (hids : getCategoryIds remote rand0 = Except.ok ids)
    (hloop : (fetchLoop remote rands ids).2 = some e) :
    setupAndStart remote rand0 rands s =
      ({ showLoadingView s with categories := (fetchLoop remote rands ids).1 }, some e) := by
  simp [setupAndStart, if_neg hl, hids, hloop]

/-- Shape of a fully successful run. -/
theorem setupAndStart_okShape (remote : Remote) (rand0 : Nat → Nat)
    (rands : Nat → Nat → Nat) (s : AppState) (ids : List Nat)
    (hl : s.startLabel ≠ "Loading...")
    (hids : getCategoryIds remote rand0 = Except.ok ids)
    (hloop : (fetchLoop remote rands ids).2 = none) :
    setupAndStart remote rand0 rands s =
      (fillTable { showLoadingView s with categories := (fetchLoop remote rands ids).1 },
       none) := by
  simp [setupAndStart, if_neg hl, hids, hloop]

/-- A run that resolved (`none` rejection) must have taken the fully
successful path. -/
theorem setupAndStart_ok_inv (remote : Remote) (rand0 : Nat → Nat)
    (rands : Nat → Nat → Nat) (s : AppState)
    (hl : s.startLabel ≠ "Loading...")
    (hok : (setupAndStart remote rand0 rands s).2 = none) :
    ∃ ids, getCategoryIds remote rand0 = Except.ok ids ∧
      (fetchLoop remote rands ids).2 = none ∧
      setupAndStart remote rand0 rands s =
        (fillTable { showLoadingView s with categories := (fetchLoop remote rands ids).1 },
         none) := by
  cases hids : getCategoryIds remote rand0 with
  | error e =>
    rw [setupAndStart_errIds remote rand0 rands s e hl hids] at hok
    simp at hok
  | ok ids =>
    cases hloop : (fetchLoop remote rands ids).2 with
    | some e =>
      rw [setupAndStart_errLoop remote rand0 rands s ids e hl hids hloop] at hok
      simp at hok
    | none =>
      exact ⟨ids, rfl, hloop, setupAndStart_okShape remote rand0 rands s ids hl hids hloop⟩

/-- For a healthy candidate pool, a successful loop yields exactly six
categories. -/
theorem board_length_of_ok (remote : Remote) (rand0 : Nat → Nat)
    (rands : Nat → Nat → Nat) (cands : List Candidate) (ids : List Nat)
    (hc : remote.categoriesData = Except.ok cands)
    (h6 : 6 ≤ cands.length)
    (hids : getCategoryIds remote rand0 = Except.ok ids)
    (hloop : (fetchLoop remote rands ids).2 = none) :
    (fetchLoop remote rands ids).1.length = 6 := by
  obtain ⟨cands2, hc2, hideq⟩ := getCategoryIds_ok remote rand0 ids hids
  rw [hc] at hc2
  cases hc2
  rw [fetchLoop_ok_length remote ids rands hloop, hideq, sampleSize_length]
  simp
  omega

/-- C5: every successful restart leaves the grid in the canonical fresh
shape: `tbody` is exactly the hard-coded 5-row × 6-column grid of hidden
placeholder cells (an expression independent of the pre-restart state, so
no cell or address of the previous grid survives), and `thead` is exactly
one header row with one cell per category of the new board. -/
theorem claim_C5_fresh_full_grid (remote : Remote) (rand0 : Nat → Nat)
    (rands : Nat → Nat → Nat) (s : AppState)
    (hl : s.startLabel ≠ "Loading...")
    (hok : (setupAndStart remote rand0 rands s).2 = none) :
    ((setupAndStart remote rand0 rands s).1).tbody = freshGrid ∧
    ((setupAndStart remote rand0 rands s).1).thead =
      [((setupAndStart remote rand0 rands s).1).categories.map Category.title] ∧
    freshGrid.length = 5 ∧
    (∀ row ∈ freshGrid, row.length = 6 ∧ ∀ cl ∈ row,
      cl.content = CellContent.placeholder ∧ cl.disabled = false ∧
      ∃ ci < 6, ∃ ri < 5, cl.id = some (cellId ci ri)) := by
  obtain ⟨ids, hids, hloop, hshape⟩ := setupAndStart_ok_inv remote rand0 rands s hl hok
  rw [hshape]
  refine ⟨rfl, ?_, by decide, by decide⟩
  simp [fillTable, hideLoadingView, showLoadingView]

/-- C5 witness: restarting from the concrete stale state against the
healthy remote produces the canonical fresh grid. -/
theorem claim_C5_fresh_full_grid_witness :
    ((setupAndStart okRemote zeroRand zeroRands staleState).1).tbody = freshGrid ∧
    ((setupAndStart okRemote zeroRand zeroRands staleState).1).thead =
      [((setupAndStart okRemote zeroRand zeroRands staleState).1).categories.map
        Category.title] ∧
    freshGrid.length = 5 ∧
    (∀ row ∈ freshGrid, row.length = 6 ∧ ∀ cl ∈ row,
      cl.content = CellContent.placeholder ∧ cl.disabled = false ∧
      ∃ ci < 6, ∃ ri < 5, cl.id = some (cellId ci ri)) :=
  claim_C5_fresh_full_grid okRemote zeroRand zeroRands staleState
    (by decide) (by decide)

/-- C6 counterexample: the claim says every successfully produced Board has
exactly six categories; against a remote offering only three candidate ids
the run still succeeds (no error propagates) yet the Board has three
categories, because lodash `sampleSize` silently clamps. -/
theorem claim_C6_counterexample :
    (setupAndStart shortRemote zeroRand zeroRands startState).2 = none ∧
    ((setupAndStart shortRemote zeroRand zeroRands startState).1).categories.length = 3 := by
  decide

/-- C6 amended: provided the remote offers at least six candidate ids and
at least five clues in every category it serves, every Board produced by a
successful run has exactly six categories of exactly five clues each. -/
theorem claim_C6_amended_dimensions (remote : Remote) (rand0 : Nat → Nat)
    (rands : Nat → Nat → Nat) (s : AppState) (cands : List Candidate)
    (hl : s.startLabel ≠ "Loading...")
    (hc : remote.categoriesData = Except.ok cands)
    (h6 : 6 ≤ cands.length)
    (h5 : ∀ cid rc, remote.categoryData cid = Except.ok rc → 5 ≤ rc.clues.length)
    (hok : (setupAndStart remote rand0 rands s).2 = none) :
    ((setupAndStart remote rand0 rands s).1).categories.length = 6 ∧
    ∀ cat ∈ ((setupAndStart remote rand0 rands s).1).categories,
      cat.clues.length = 5 := by
  obtain ⟨ids, hids, hloop, hshape⟩ := setupAndStart_ok_inv remote rand0 rands s hl hok
  rw [hshape]
  constructor
  · simpa [fillTable, hideLoadingView, showLoadingView] using
      board_length_of_ok remote rand0 rands cands ids hc h6 hids hloop
  · intro cat hmem
    have hmem2 : cat ∈ (fetchLoop remote rands ids).1 := by
      simpa [fillTable, hideLoadingView, showLoadingView] using hmem
    obtain ⟨cid, r, _, hcat⟩ := fetchLoop_mem remote ids rands cat hmem2
    obtain ⟨rc, hrc, hcateq⟩ := getCategory_ok remote r cid cat hcat
    rw [hcateq]
    simp [sampleSize_length]
    exact h5 cid rc hrc

/-- C6 amended witness: the healthy remote yields a six-by-five Board. -/
theorem claim_C6_amended_dimensions_witness :
    ((setupAndStart okRemote zeroRand zeroRands startState).1).categories.length = 6 ∧
    ∀ cat ∈ ((setupAndStart okRemote zeroRand zeroRands startState).1).categories,
      cat.clues.length = 5 :=
  claim_C6_amended_dimensions okRemote zeroRand zeroRands startState _
    (by decide) rfl (by decide) (fun cid rc h => by cases h; simp [okClues]) (by decide)

/-- C2 counterexample: the claim says the fetch fails whenever the remote
returns fewer candidates (or clues) than requested; in fact a three-id
candidate list makes `getCategoryIds` succeed with a three-element
selection, and a two-clue category makes `getCategory` succeed with two
clues — no error propagates. -/
theorem claim_C2_counterexample :
    getCategoryIds shortRemote zeroRand = Except.ok [1, 2, 3] ∧
    getCategory shortRemote zeroRand 1 =
      Except.ok { title := "S", clues := shortClues.map projectClue } ∧
    (shortClues.map projectClue).length = 2 := by
  decide

/-- C2 amended: the fetch step fails exactly when the remote call itself
errors; a candidate list shorter than six yields a successful shorter
selection of length `min 6 n`, and a category with fewer than five clues
yields a successful clue list of length `min 5 m` — never a failure. -/
theorem claim_C2_amended_error_behaviour (remote : Remote) (rand : Nat → Nat) :
    (∀ e, remote.categoriesData = Except.error e →
      getCategoryIds remote rand = Except.error e) ∧
    (∀ cands, remote.categoriesData = Except.ok cands →
      ∃ ids, getCategoryIds remote rand = Except.ok ids ∧
        ids.length = min 6 cands.length) ∧
    (∀ cid e, remote.categoryData cid = Except.error e →
      getCategory remote rand cid = Except.error e) ∧
    (∀ cid rc, remote.categoryData cid = Except.ok rc →
      ∃ cat, getCategory remote rand cid = Except.ok cat ∧
        cat.clues.length = min 5 rc.clues.length) := by
  refine ⟨?_, ?_, ?_, ?_⟩
  · intro e he; simp [getCategoryIds, he]
  · intro cands hc
    refine ⟨sampleSize (cands.map Candidate.id) 6 rand, by simp [getCategoryIds, hc], ?_⟩
    simp [sampleSize_length]
  · intro cid e he; simp [getCategory, he]
  · intro cid rc hrc
    refine ⟨{ title := rc.title, clues := (sampleSize rc.clues 5 rand).map projectClue },
      by simp [getCategory, hrc], ?_⟩
    simp [sampleSize_length]

/-- C2 amended witness: the erroring remote propagates its error, and the
three-candidate remote succeeds with `min 6 3 = 3` ids. -/
theorem claim_C2_amended_error_behaviour_witness :
    getCategoryIds errRemote zeroRand = Except.error "network down" ∧
    ∃ ids, getCategoryIds shortRemote zeroRand = Except.ok ids ∧
      ids.length = min 6 ([1, 2, 3] : List Nat).length := by
  constructor
  · exact (claim_C2_amended_error_behaviour errRemote zeroRand).1 "network down" rfl
  · have h := (claim_C2_amended_error_behaviour shortRemote zeroRand).2.1
      [{ id := 1 }, { id := 2 }, { id := 3 }] rfl
    simpa using h

/-- The projection applied to sampled remote clues is injective, since a
`Clue` keeps exactly the two fields read from the remote clue. -/
theorem projectClue_injective : Function.Injective projectClue := by
  intro a b h
  cases a
  cases b
  simpa [projectClue] using h

/-- C7: sampling is without replacement. If the remote candidate ids are
pairwise distinct, the six selected ids contain no duplicate, and if each
clue list of each remote category is pairwise distinct, no category of the Board
produced by a successful run contains the same clue twice. -/
theorem claim_C7_sampling_without_replacement (remote : Remote) (rand0 : Nat → Nat)
    (rands : Nat → Nat → Nat) (s : AppState) (cands : List Candidate)
    (hl : s.startLabel ≠ "Loading...")
    (hc : remote.categoriesData = Except.ok cands)
    (hnodup : (cands.map Candidate.id).Nodup)
    (hclues : ∀ cid rc, remote.categoryData cid = Except.ok rc → rc.clues.Nodup)
    (hok : (setupAndStart remote rand0 rands s).2 = none) :
    (∀ ids, getCategoryIds remote rand0 = Except.ok ids → ids.Nodup) ∧
    (∀ cat ∈ ((setupAndStart remote rand0 rands s).1).categories,
      cat.clues.Nodup) := by
  constructor
  · intro ids hids
    obtain ⟨cands2, hc2, hideq⟩ := getCategoryIds_ok remote rand0 ids hids
    rw [hc] at hc2
    cases hc2
    rw [hideq]
    exact sampleSize_nodup _ 6 rand0 hnodup
  · obtain ⟨ids, hids, hloop, hshape⟩ := setupAndStart_ok_inv remote rand0 rands s hl hok
    rw [hshape]
    intro cat hmem
    have hmem2 : cat ∈ (fetchLoop remote rands ids).1 := by
      simpa [fillTable, hideLoadingView, showLoadingView] using hmem
    obtain ⟨cid, r, _, hcat⟩ := fetchLoop_mem remote ids rands cat hmem2
    obtain ⟨rc, hrc, hcateq⟩ := getCategory_ok remote r cid cat hcat
    rw [hcateq]
    exact List.Nodup.map projectClue_injective
      (sampleSize_nodup _ 5 r (hclues cid rc hrc))

/-- C7 witness: the healthy remote has distinct ids and distinct clues, and
the resulting run selects distinct ids and builds duplicate-free clue
lists. -/
theorem claim_C7_sampling_without_replacement_witness :
    (∀ ids, getCategoryIds okRemote zeroRand = Except.ok ids → ids.Nodup) ∧
    (∀ cat ∈ ((setupAndStart okRemote zeroRand zeroRands startState).1).categories,
      cat.clues.Nodup) :=
  claim_C7_sampling_without_replacement okRemote zeroRand zeroRands startState _
    (by decide) rfl (by decide)
    (fun cid rc h => by cases h; simp [okClues]) (by decide)

/-- C9: `setupAndStart` is not atomic on error. If the category-id fetch
rejects, the run ends as `showLoadingView s` — the old `categories` array
is retained while the grid has been wiped and the start control still says
`"Loading..."`. If instead a per-category fetch rejects mid-loop, the
`categories` array has been reset and holds only the categories fetched
before the failure: a partial board strictly shorter than the selected id
list, which itself has at most six entries. -/
theorem claim_C9_nonatomic_failure (remote : Remote) (rand0 : Nat → Nat)
    (rands : Nat → Nat → Nat) (s : AppState)
    (hl : s.startLabel ≠ "Loading...") :
    (∀ e, getCategoryIds remote rand0 = Except.error e →
      setupAndStart remote rand0 rands s = (showLoadingView s, some e) ∧
      (showLoadingView s).categories = s.categories ∧
      (showLoadingView s).thead = ([] : List (List String)) ∧
      (showLoadingView s).tbody = ([] : List (List Cell)) ∧
      (showLoadingView s).startLabel = "Loading...") ∧
    (∀ ids e, getCategoryIds remote rand0 = Except.ok ids →
      (fetchLoop remote rands ids).2 = some e →
      setupAndStart remote rand0 rands s =
        ({ showLoadingView s with categories := (fetchLoop remote rands ids).1 },
         some e) ∧
      (fetchLoop remote rands ids).1.length < ids.length ∧
      ids.length ≤ 6 ∧
      (∀ cat ∈ (fetchLoop remote rands ids).1, ∃ cid r, cid ∈ ids ∧
        getCategory remote r cid = Except.ok cat)) := by
  constructor
  · intro e he
    exact ⟨setupAndStart_errIds remote rand0 rands s e hl he, rfl, rfl, rfl, rfl⟩
  · intro ids e hids hloop
    refine ⟨setupAndStart_errLoop remote rand0 rands s ids e hl hids hloop,
      fetchLoop_err_length remote ids rands e hloop, ?_,
      fun cat hmem => fetchLoop_mem remote ids rands cat hmem⟩
    obtain ⟨cands2, _, hideq⟩ := getCategoryIds_ok remote rand0 ids hids
    rw [hideq, sampleSize_length]
    exact Nat.min_le_left 6 _

/-- C9 witness: against the remote whose detail call for id 12 rejects,
the run stops with the two categories fetched before the failure. -/
theorem claim_C9_nonatomic_failure_witness :
    setupAndStart midFailRemote zeroRand zeroRands startState =
      ({ showLoadingView startState with
         categories := (fetchLoop midFailRemote zeroRands [10, 11, 12, 13, 14, 15]).1 },
       some "boom") ∧
    (fetchLoop midFailRemote zeroRands [10, 11, 12, 13, 14, 15]).1.length <
      ([10, 11, 12, 13, 14, 15] : List Nat).length := by
  have h := (claim_C9_nonatomic_failure midFailRemote zeroRand zeroRands startState
    (by decide)).2 [10, 11, 12, 13, 14, 15] "boom" (by decide) (by decide)
  exact ⟨h.1, h.2.1⟩

/-- C3 counterexample: the claim says the loading view is exited only after
the grid has been fully emitted; on a concrete successful restart the
`exitLoading` event occurs strictly before the header and row emissions,
because `fillTable` calls `hideLoadingView()` first. -/
theorem claim_C3_counterexample :
    (setupAndStart okRemote zeroRand zeroRands startState).2 = none ∧
    setupAndStartTrace okRemote zeroRand zeroRands startState =
      [Ev.enterLoading, Ev.fetchIds, Ev.fetchCat 10, Ev.fetchCat 11, Ev.fetchCat 12,
       Ev.fetchCat 13, Ev.fetchCat 14, Ev.fetchCat 15, Ev.exitLoading, Ev.emitHeader,
       Ev.clearBody, Ev.emitRow 0, Ev.emitRow 1, Ev.emitRow 2, Ev.emitRow 3,
       Ev.emitRow 4] ∧
    (setupAndStartTrace okRemote zeroRand zeroRands startState).indexOf Ev.exitLoading <
      (setupAndStartTrace okRemote zeroRand zeroRands startState).indexOf
        Ev.emitHeader := by
  decide

/-- C3 amended: on every successful restart the observable order is enter
loading view, fetch the ids, fetch each category, exit the loading view,
and only then emit the grid — i.e. the loading state is cleared after the
fetch completes but immediately before (not after) the grid is rendered. -/
theorem claim_C3_amended_trace (remote : Remote) (rand0 : Nat → Nat)
    (rands : Nat → Nat → Nat) (s : AppState) (ids : List Nat)
    (hl : s.startLabel ≠ "Loading...")
    (hids : getCategoryIds remote rand0 = Except.ok ids)
    (hloop : (fetchLoop remote rands ids).2 = none) :
    setupAndStartTrace remote rand0 rands s =
      Ev.enterLoading :: Ev.fetchIds :: (ids.map Ev.fetchCat ++
        Ev.exitLoading :: Ev.emitHeader :: Ev.clearBody ::
          (List.range 5).map Ev.emitRow) := by
  simp [setupAndStartTrace, if_neg hl, hids, hloop,
    fetchLoopTrace_ok remote ids rands hloop, fillTableTrace]

/-- C3 amended witness: the concrete successful restart produces exactly
the amended event order. -/
theorem claim_C3_amended_trace_witness :
    setupAndStartTrace okRemote zeroRand zeroRands startState =
      Ev.enterLoading :: Ev.fetchIds ::
        (([10, 11, 12, 13, 14, 15] : List Nat).map Ev.fetchCat ++
          Ev.exitLoading :: Ev.emitHeader :: Ev.clearBody ::
            (List.range 5).map Ev.emitRow) :=
  claim_C3_amended_trace okRemote zeroRand zeroRands startState
    [10, 11, 12, 13, 14, 15] (by decide) (by decide) (by decide)

end Jeopardy
